import Mathlib

/- Shallow embedding of simulation/agents.py (the Household agent of the
centrefornetzero abm repository) together with proofs about it.

The enumerations PropertyType, BuiltForm, Element and InsulationSegment are
declared in simulation/constants.py, which is not among the sources; the
constructors below are exactly the members that simulation/agents.py
references.  Machine floats are embedded as real numbers, Python ints as
integers, and the process-wide random generator is embedded by passing each
uniform draw explicitly: random.randint(a, b) becomes a + r % (b - a + 1)
for an arbitrary natural draw r, and random.random() becomes a rational
draw u with 0 <= u < 1. -/

inductive PropertyType where
  | FLAT
  | HOUSE
  | BUNGALOW
  deriving DecidableEq

inductive BuiltForm where
  | MID_TERRACE
  | END_TERRACE
  | SEMI_DETACHED
  | DETACHED
  deriving DecidableEq

inductive Element where
  | WALLS
  | ROOF
  | GLAZING
  deriving DecidableEq

inductive InsulationSegment where
  | SMALL_FLAT
  | LARGE_FLAT
  | SMALL_MID_TERRACE_HOUSE
  | LARGE_MID_TERRACE_HOUSE
  | SMALL_SEMI_END_TERRACE_HOUSE
  | LARGE_SEMI_END_TERRACE_HOUSE
  | SMALL_DETACHED_HOUSE
  | LARGE_DETACHED_HOUSE
  | BUNGALOW
  deriving DecidableEq

/- The Household agent state (agents.py, Household.__init__).  Fields whose
types come from the missing constants module and that none of the verified
operations read (construction_year_band, heating_system, epc,
occupant_type) are not modelled.  __init__ sets is_renovating := false and
leaves the two scope attributes unset, which is modelled as Option.none;
decide_renovation_scope later assigns Option.some values to them. -/
structure Household where
  location : String
  property_value : Int
  floor_area_sqm : Int
  off_gas_grid : Bool
  property_type : PropertyType
  built_form : BuiltForm
  is_solid_wall : Bool
  heating_functioning : Bool
  heating_system_age : Int
  walls_energy_efficiency : Int
  roof_energy_efficiency : Int
  windows_energy_efficiency : Int
  is_heat_pump_suitable_archetype : Bool
  is_heat_pump_aware : Bool
  is_renovating : Bool
  renovate_heating_system : Option Bool
  renovate_insulation : Option Bool
  deriving DecidableEq

/- agents.py, Household.insulation_segment: a cascade of if-blocks, each
ending in a return; the Python function implicitly returns None when no
branch matches, embedded as Option.none. -/
def insulation_segment (h : Household) : Option InsulationSegment :=
  if h.property_type = PropertyType.FLAT then
    some (if h.floor_area_sqm < 54 then InsulationSegment.SMALL_FLAT
          else InsulationSegment.LARGE_FLAT)
  else if h.property_type = PropertyType.HOUSE ∧ h.built_form = BuiltForm.MID_TERRACE then
    some (if h.floor_area_sqm < 76 then InsulationSegment.SMALL_MID_TERRACE_HOUSE
          else InsulationSegment.LARGE_MID_TERRACE_HOUSE)
  else if h.property_type = PropertyType.HOUSE ∧
      (h.built_form = BuiltForm.END_TERRACE ∨ h.built_form = BuiltForm.SEMI_DETACHED) then
    some (if h.floor_area_sqm < 80 then InsulationSegment.SMALL_SEMI_END_TERRACE_HOUSE
          else InsulationSegment.LARGE_SEMI_END_TERRACE_HOUSE)
  else if h.property_type = PropertyType.HOUSE ∧ h.built_form = BuiltForm.DETACHED then
    some (if h.floor_area_sqm < 117 then InsulationSegment.SMALL_DETACHED_HOUSE
          else InsulationSegment.LARGE_DETACHED_HOUSE)
  else if h.property_type = PropertyType.BUNGALOW then
    some InsulationSegment.BUNGALOW
  else
    none

/- The segmentation table as the spec states it (section 4.3): property
type drives the top branch, a strict floor-area test separates small from
large, thresholds 54 / 76 / 80 / 117, bungalows a single segment.  This is
the spec-side definition which insulation_segment is compared against. -/
def insulation_segment_spec_table (pt : PropertyType) (bf : BuiltForm) (fa : Int) :
    Option InsulationSegment :=
  match pt, bf with
  | .FLAT, _ => some (if fa < 54 then .SMALL_FLAT else .LARGE_FLAT)
  | .HOUSE, .MID_TERRACE =>
      some (if fa < 76 then .SMALL_MID_TERRACE_HOUSE else .LARGE_MID_TERRACE_HOUSE)
  | .HOUSE, .END_TERRACE =>
      some (if fa < 80 then .SMALL_SEMI_END_TERRACE_HOUSE else .LARGE_SEMI_END_TERRACE_HOUSE)
  | .HOUSE, .SEMI_DETACHED =>
      some (if fa < 80 then .SMALL_SEMI_END_TERRACE_HOUSE else .LARGE_SEMI_END_TERRACE_HOUSE)
  | .HOUSE, .DETACHED =>
      some (if fa < 117 then .SMALL_DETACHED_HOUSE else .LARGE_DETACHED_HOUSE)
  | .BUNGALOW, _ => some .BUNGALOW

/- A concrete household mirroring the default factory in
simulation/tests/test_costs.py (a 82 sqm mid-terrace cavity-wall house). -/
def baseHousehold : Household where
  location := "Test Location"
  property_value := 264000
  floor_area_sqm := 82
  off_gas_grid := false
  property_type := PropertyType.HOUSE
  built_form := BuiltForm.MID_TERRACE
  is_solid_wall := false
  heating_functioning := true
  heating_system_age := 0
  walls_energy_efficiency := 3
  roof_energy_efficiency := 3
  windows_energy_efficiency := 3
  is_heat_pump_suitable_archetype := true
  is_heat_pump_aware := true
  is_renovating := false
  renovate_heating_system := none
  renovate_insulation := none

/- Modelled from the spec: the model context (simulation/model.py, not in
the sources) exposes step_interval, a duration held here in days, and
annual_renovation_rate, a probability per year (spec sections 3 and 6). -/
structure ModelContext where
  annual_renovation_rate : ℚ
  step_interval_days : ℚ

/- agents.py, Household.true_with_probability: random.random() < p, with
the uniform draw u passed explicitly. -/
def true_with_probability (p u : ℚ) : Bool :=
  decide (u < p)

/- agents.py, Household.evaluate_renovation: probability =
annual_renovation_rate * (step_interval / timedelta(days=365)). -/
def evaluate_renovation (m : ModelContext) (u : ℚ) (h : Household) : Household :=
  { h with is_renovating :=
      true_with_probability (m.annual_renovation_rate * (m.step_interval_days / 365)) u }

/- agents.py, Household.decide_renovation_scope, with its two fixed VERD
probabilities and one uniform draw for each scope flag. -/
def decide_renovation_scope (u1 u2 : ℚ) (h : Household) : Household :=
  { h with
      renovate_heating_system := some (true_with_probability 0.18 u1)
      renovate_insulation := some (true_with_probability 0.33 u2) }

/- agents.py, Household.get_upgradable_insulation_elements: the elements
whose grade is strictly below MAX_ENERGY_EFFICIENCY_SCORE = 5, in the
zip order walls, roof, glazing. -/
def get_upgradable_insulation_elements (h : Household) : List Element :=
  (([(h.walls_energy_efficiency, Element.WALLS),
     (h.roof_energy_efficiency, Element.ROOF),
     (h.windows_energy_efficiency, Element.GLAZING)].filter
      (fun p => p.1 < 5)).map (fun p => p.2))

/- Modelled from the spec: a cost table entry is a closed numeric interval
[low, high] (spec section 3, Cost Tables); pandas.Interval left/right. -/
structure CostInterval where
  left : Int
  right : Int
  deriving DecidableEq

/- Modelled from the spec: the four cost tables
INTERNAL_WALL_INSULATION_COST, CAVITY_WALL_INSULATION_COST,
DOUBLE_GLAZING_UPVC_COST and LOFT_INSULATION_JOISTS_COST live in
simulation/costs.py, not in the sources; the spec describes them as static
mappings from segment to a closed interval.  They are modelled as partial
maps so that an absent entry (a Python KeyError on lookup) is expressible. -/
structure CostTables where
  internal_wall : InsulationSegment → Option CostInterval
  cavity_wall : InsulationSegment → Option CostInterval
  double_glazing : InsulationSegment → Option CostInterval
  loft_joists : InsulationSegment → Option CostInterval

/- agents.py, sample_interval_uniformly: random.randint(left, right), an
integer uniform on the closed interval; the library draw is embedded as
left + r % (right - left + 1) for an arbitrary natural draw r, which
realises exactly the values left..right. -/
def sample_interval_uniformly (i : CostInterval) (r : ℕ) : Int :=
  i.left + (r : Int) % (i.right - i.left + 1)

/- The table a given element resolves to inside
Household.get_quote_insulation_elements: walls use the internal-wall table
for solid walls and the cavity-wall table otherwise, glazing the
double-glazing table, roofs the loft table. -/
def applicable_cost_table (t : CostTables) (h : Household) (e : Element) :
    InsulationSegment → Option CostInterval :=
  match e with
  | Element.WALLS => if h.is_solid_wall then t.internal_wall else t.cavity_wall
  | Element.GLAZING => t.double_glazing
  | Element.ROOF => t.loft_joists

/- The entry TABLE[self.insulation_segment] that the code reads for an
element: none both when the segment itself is undefined (indexing a dict
with None) and when the table has no entry for the segment; in Python
either raises KeyError. -/
def cost_entry (t : CostTables) (h : Household) (e : Element) : Option CostInterval :=
  (insulation_segment h).bind (applicable_cost_table t h e)

/- agents.py, Household.get_quote_insulation_elements: the dict
comprehension {element: 0 for element in elements} followed by the loop
that overwrites each requested element with a sampled cost.  An entry
update models insulation_quotes[element] = ..., and a missing table entry
stops the loop with the KeyError the dict lookup raises. -/
def update_quote (qs : List (Element × Int)) (e : Element) (c : Int) :
    List (Element × Int) :=
  qs.map (fun p => if p.1 = e then (p.1, c) else p)

def quote_loop (t : CostTables) (h : Household) (rs : Element → ℕ) :
    List (Element × Int) → List Element → Except String (List (Element × Int))
  | qs, [] => Except.ok qs
  | qs, e :: rest =>
      match cost_entry t h e with
      | none => Except.error "KeyError"
      | some i => quote_loop t h rs (update_quote qs e (sample_interval_uniformly i (rs e))) rest

def get_quote_insulation_elements (t : CostTables) (h : Household) (rs : Element → ℕ)
    (elements : List Element) : Except String (List (Element × Int)) :=
  quote_loop t h rs (elements.map (fun e => (e, 0))) elements

/- agents.py, Household.step.  Python mutates the agent in place, so the
attribute writes survive even when the quoting raises; the embedding
therefore returns the mutated household together with the step's normal or
exceptional outcome. -/
def step (t : CostTables) (m : ModelContext) (u u1 u2 : ℚ) (rs : Element → ℕ)
    (h : Household) : Household × Except String Unit :=
  let h1 := evaluate_renovation m u h
  if h1.is_renovating then
    let h2 := decide_renovation_scope u1 u2 h1
    if h2.renovate_insulation = some true then
      match get_quote_insulation_elements t h2 rs (get_upgradable_insulation_elements h2) with
      | Except.error msg => (h2, Except.error msg)
      | Except.ok _ => (h2, Except.ok ())
    else (h2, Except.ok ())
  else (h1, Except.ok ())

/- The value the loop writes for an element whose table entry exists: the
uniform sample over that entry (helper for stating the ok-result of
get_quote_insulation_elements; the getD default is never reached when the
entry is present). -/
def sampled_quote (t : CostTables) (h : Household) (rs : Element → ℕ) (e : Element) : Int :=
  ((cost_entry t h e).map (fun i => sample_interval_uniformly i (rs e))).getD 0

def except_ok {α : Type} (x : Except String α) : Bool :=
  match x with
  | Except.ok _ => true
  | Except.error _ => false

/- Concrete fixtures for the evaluations below. -/
def emptyTables : CostTables :=
  ⟨fun _ => none, fun _ => none, fun _ => none, fun _ => none⟩

def unitTables : CostTables :=
  ⟨fun _ => some ⟨1000, 2000⟩, fun _ => some ⟨800, 1600⟩,
   fun _ => some ⟨3000, 5000⟩, fun _ => some ⟨300, 700⟩⟩

/- A model with a 0.05 annual renovation rate and a one-day step, as in the
test factory, and a model whose per-step probability exceeds one. -/
def lowRateModel : ModelContext := ⟨1/20, 1⟩

def saturatedModel : ModelContext := ⟨2, 365⟩

/- A household carrying scope flags left over from an earlier step's
decide_renovation_scope call. -/
def staleHousehold : Household :=
  { baseHousehold with renovate_heating_system := some true, renovate_insulation := some false }

/- agents.py, Household.get_weibull_percentile_from_value: machine floats
are embedded as real numbers and Python ** between them as the real
power. -/
noncomputable def get_weibull_percentile_from_value (alpha beta input_value : ℝ) : ℝ :=
  1 - Real.exp (-((input_value / beta) ^ alpha))

/- The epsilon = 0.0000001 the code adds inside the logarithm of
get_weibull_value_from_percentile. -/
noncomputable def epsilon : ℝ := 0.0000001

/- agents.py, Household.get_weibull_value_from_percentile. -/
noncomputable def get_weibull_value_from_percentile (alpha beta percentile : ℝ) : ℝ :=
  beta * (-Real.log (1 + epsilon - percentile)) ^ (1 / alpha)

/- The same inverse with the epsilon term removed: the mathematical
Weibull quantile function, used to isolate the epsilon-induced error of
the roundtrip. -/
noncomputable def weibull_value_from_percentile_exact (alpha beta percentile : ℝ) : ℝ :=
  beta * (-Real.log (1 - percentile)) ^ (1 / alpha)

/- Modelled from the spec: GB_PROPERTY_VALUE_WEIBULL_ALPHA/BETA and
GB_RENOVATION_BUDGET_WEIBULL_ALPHA/BETA are fixed calibration constants
defined in simulation/constants.py, which is not among the sources; the
spec describes them only as externally calibrated Weibull parameters, so
they are carried as an abstract parameter record. -/
structure GBWeibullConstants where
  property_value_alpha : ℝ
  property_value_beta : ℝ
  renovation_budget_alpha : ℝ
  renovation_budget_beta : ℝ

/- agents.py, Household.wealth_percentile. -/
noncomputable def wealth_percentile (c : GBWeibullConstants) (h : Household) : ℝ :=
  get_weibull_percentile_from_value c.property_value_alpha c.property_value_beta
    (h.property_value : ℝ)

/- agents.py, Household.renovation_budget, with
HEATING_PROPORTION_OF_BUDGET = 0.1. -/
noncomputable def renovation_budget (c : GBWeibullConstants) (h : Household) : ℝ :=
  0.1 * get_weibull_value_from_percentile c.renovation_budget_alpha
    c.renovation_budget_beta (wealth_percentile c h)

/- Python float exponentiation with its failure modes made explicit: 0.0
raised to a negative power raises ZeroDivisionError, and a negative base
with a non-integral exponent yields a complex number, which the math.exp
call that consumes the result rejects with a TypeError; both are embedded
as errors.  On the remaining inputs it agrees with the real power (for an
integral exponent the real power of a negative base coincides with
Python's value). -/
open scoped Classical in
noncomputable def pyFloatPow (b e : ℝ) : Except String ℝ :=
  if b = 0 ∧ e < 0 then Except.error "ZeroDivisionError"
  else if b < 0 ∧ ∀ n : ℤ, e ≠ (n : ℝ) then Except.error "complex power"
  else Except.ok (b ^ e)

/- get_weibull_percentile_from_value with Python's error behaviour kept:
input_value / beta raises ZeroDivisionError when beta = 0, and the
power's failures propagate through math.exp. -/
open scoped Classical in
noncomputable def get_weibull_percentile_from_value_checked
    (alpha beta input_value : ℝ) : Except String ℝ :=
  if beta = 0 then Except.error "ZeroDivisionError"
  else (pyFloatPow (input_value / beta) alpha).map (fun t => 1 - Real.exp (-t))

/- Household.wealth_percentile evaluated through the checked transform. -/
noncomputable def wealth_percentile_checked (c : GBWeibullConstants) (h : Household) :
    Except String ℝ :=
  get_weibull_percentile_from_value_checked c.property_value_alpha
    c.property_value_beta (h.property_value : ℝ)

/-- Every household of the enumerated property types and built forms is
assigned some segment by the classifier; the final fallthrough branch of
insulation_segment is unreachable for them. -/
theorem insulation_segment_isSome (h : Household) : (insulation_segment h).isSome := by
  rcases h with ⟨_, _, fa, _, pt, bf, _⟩
  cases pt <;> cases bf <;> simp [insulation_segment]

/-- Claim C5: for every household covered by the segmentation table,
insulation_segment classifies by property type, built form and a strict
less-than floor-area test against the thresholds 54 (flats), 76
(mid-terrace), 80 (end-terrace and semi-detached) and 117 (detached), with
bungalows a single segment, so that a floor area exactly at the threshold
falls in the large bucket: a 76 sqm mid-terrace house is classified
LARGE_MID_TERRACE_HOUSE and a 75 sqm one SMALL_MID_TERRACE_HOUSE. -/
theorem insulation_segment_matches_spec_table :
    (∀ h : Household, insulation_segment h =
      insulation_segment_spec_table h.property_type h.built_form h.floor_area_sqm) ∧
    insulation_segment { baseHousehold with floor_area_sqm := 76 } =
      some InsulationSegment.LARGE_MID_TERRACE_HOUSE ∧
    insulation_segment { baseHousehold with floor_area_sqm := 75 } =
      some InsulationSegment.SMALL_MID_TERRACE_HOUSE := by
  refine ⟨?_, by decide, by decide⟩
  intro h
  rcases h with ⟨_, _, fa, _, pt, bf, _⟩
  cases pt <;> cases bf <;>
    simp [insulation_segment, insulation_segment_spec_table]

/-- Claim C6: evaluate_renovation sets is_renovating to the comparison of
the uniform draw against annual_renovation_rate times step_interval over
one 365-day year, and the outcome is independent of the household's
previous state (no accumulated or sticky probability). -/
theorem evaluate_renovation_fresh_bernoulli :
    ∀ (m : ModelContext) (u : ℚ) (h : Household),
      (evaluate_renovation m u h).is_renovating =
        decide (u < m.annual_renovation_rate * (m.step_interval_days / 365)) ∧
      ∀ h2 : Household, (evaluate_renovation m u h).is_renovating =
        (evaluate_renovation m u h2).is_renovating :=
  fun _ _ _ => ⟨rfl, fun _ => rfl⟩

/-- Claim C10: the renovation probability is never clamped, so whenever
annual_renovation_rate times the step fraction of a year is at least 1,
every uniform draw in [0,1) makes true_with_probability return true and
evaluate_renovation set is_renovating. -/
theorem evaluate_renovation_saturated_probability (m : ModelContext) (h : Household)
    (u : ℚ) (hu0 : 0 ≤ u) (hu1 : u < 1)
    (hp : 1 ≤ m.annual_renovation_rate * (m.step_interval_days / 365)) :
    (evaluate_renovation m u h).is_renovating = true ∧
    true_with_probability (m.annual_renovation_rate * (m.step_interval_days / 365)) u
      = true := by
  have hlt : u < m.annual_renovation_rate * (m.step_interval_days / 365) :=
    lt_of_lt_of_le hu1 hp
  exact ⟨by simp [evaluate_renovation, true_with_probability, hlt],
    by simp [true_with_probability, hlt]⟩

theorem evaluate_renovation_saturated_probability_witness :
    (evaluate_renovation saturatedModel 0 baseHousehold).is_renovating = true ∧
    true_with_probability
      (saturatedModel.annual_renovation_rate * (saturatedModel.step_interval_days / 365)) 0
      = true :=
  evaluate_renovation_saturated_probability saturatedModel baseHousehold 0 le_rfl
    (by norm_num) (by norm_num [saturatedModel])

/-- Claim C8 amended: the scope flags renovate_heating_system and
renovate_insulation are assigned fresh values during a step exactly when
the step's renovation draw succeeds; when it fails they keep whatever
values the household carried before, persisting a previous step's
decision. -/
theorem step_scope_flags (t : CostTables) (m : ModelContext) (u u1 u2 : ℚ)
    (rs : Element → ℕ) (h : Household) :
    ((step t m u u1 u2 rs h).1.renovate_heating_system,
     (step t m u u1 u2 rs h).1.renovate_insulation) =
      if true_with_probability (m.annual_renovation_rate * (m.step_interval_days / 365)) u
      then (some (true_with_probability 0.18 u1), some (true_with_probability 0.33 u2))
      else (h.renovate_heating_system, h.renovate_insulation) := by
  cases hb : true_with_probability (m.annual_renovation_rate * (m.step_interval_days / 365)) u
  · simp [step, evaluate_renovation, hb]
  · simp only [step, evaluate_renovation, hb, if_true]
    rcases hq : get_quote_insulation_elements t
        (decide_renovation_scope u1 u2 { h with is_renovating := true }) rs
        (get_upgradable_insulation_elements
          (decide_renovation_scope u1 u2 { h with is_renovating := true })) with msg | qs <;>
      simp [decide_renovation_scope, hq] <;> split <;> simp

/-- Claim C8 counterexample: a step whose renovation draw fails leaves the
scope flags untouched: the household enters the step with
renovate_heating_system = some true from an earlier decision, this step's
heating draw (9/10) is below no threshold, and after the step the flag
still reads some true instead of a freshly drawn value. -/
theorem step_scope_flags_counterexample :
    (step unitTables lowRateModel (3/4) (9/10) (9/10) (fun _ => 0)
        staleHousehold).1.renovate_heating_system = some true ∧
    true_with_probability 0.18 (9/10) = false ∧
    staleHousehold.renovate_heating_system = some true := by
  have hb : true_with_probability
      (lowRateModel.annual_renovation_rate * (lowRateModel.step_interval_days / 365))
      (3/4) = false := by
    simp only [true_with_probability, lowRateModel, decide_eq_false_iff_not, not_lt]
    norm_num
  refine ⟨?_, ?_, rfl⟩
  · simp [step, evaluate_renovation, hb, staleHousehold]
  · simp only [true_with_probability, decide_eq_false_iff_not, not_lt]
    norm_num

theorem quote_loop_missing_entry (t : CostTables) (h : Household) (rs : Element → ℕ) :
    ∀ (todo : List Element) (qs : List (Element × Int)),
      (∃ e ∈ todo, cost_entry t h e = none) →
      quote_loop t h rs qs todo = Except.error "KeyError"
  | [], _, hex => by simp at hex
  | a :: rest, qs, hex => by
      obtain ⟨e, he, hm⟩ := hex
      unfold quote_loop
      cases ha : cost_entry t h a with
      | none => rfl
      | some i =>
          have hrest : e ∈ rest := by
            rcases List.mem_cons.mp he with h1 | h1
            · subst h1; rw [ha] at hm; exact absurd hm (by simp)
            · exact h1
          exact quote_loop_missing_entry t h rs rest _ ⟨e, hrest, hm⟩

/-- Claim C3: if a requested element's applicable cost table has no entry
for the household's segment (in particular when the segment itself is
undefined), get_quote_insulation_elements surfaces the KeyError of the
failed lookup instead of ever returning a result in which that element
keeps the comprehension's silent default of 0. -/
theorem get_quote_missing_entry_raises (t : CostTables) (h : Household)
    (rs : Element → ℕ) (elements : List Element) (e : Element) (he : e ∈ elements)
    (hmiss : cost_entry t h e = none) :
    get_quote_insulation_elements t h rs elements = Except.error "KeyError" :=
  quote_loop_missing_entry t h rs elements _ ⟨e, he, hmiss⟩

theorem get_quote_missing_entry_raises_witness :
    get_quote_insulation_elements emptyTables baseHousehold (fun _ => 0)
      [Element.WALLS] = Except.error "KeyError" :=
  get_quote_missing_entry_raises emptyTables baseHousehold (fun _ => 0) [Element.WALLS]
    Element.WALLS (List.mem_singleton.mpr rfl) (by decide)

theorem quote_loop_all_entries (t : CostTables) (h : Household) (rs : Element → ℕ) :
    ∀ (todo : List Element) (qs : List (Element × Int)),
      (∀ e ∈ todo, (cost_entry t h e).isSome) →
      quote_loop t h rs qs todo =
        Except.ok (qs.map (fun p =>
          if p.1 ∈ todo then (p.1, sampled_quote t h rs p.1) else p))
  | [], qs, _ => by simp [quote_loop]
  | a :: rest, qs, hdef => by
      obtain ⟨i, hi⟩ := Option.isSome_iff_exists.mp (hdef a (List.mem_cons_self a rest))
      unfold quote_loop
      rw [hi]
      show quote_loop t h rs (update_quote qs a (sample_interval_uniformly i (rs a))) rest = _
      rw [quote_loop_all_entries t h rs rest _
        (fun e he => hdef e (List.mem_cons_of_mem a he))]
      have hsq : sampled_quote t h rs a = sample_interval_uniformly i (rs a) := by
        simp [sampled_quote, hi]
      congr 1
      simp only [update_quote, List.map_map]
      refine List.map_congr_left (fun p _ => ?_)
      by_cases hpa : p.1 = a
      · by_cases hr : p.1 ∈ rest <;>
          simp [Function.comp, hpa, hr, List.mem_cons, hsq]
      · by_cases hr : p.1 ∈ rest <;>
          simp [Function.comp, hpa, hr, List.mem_cons]

theorem get_quote_all_entries (t : CostTables) (h : Household) (rs : Element → ℕ)
    (elements : List Element) (hdef : ∀ e ∈ elements, (cost_entry t h e).isSome) :
    get_quote_insulation_elements t h rs elements =
      Except.ok (elements.map (fun e => (e, sampled_quote t h rs e))) := by
  rw [get_quote_insulation_elements, quote_loop_all_entries t h rs elements _ hdef]
  congr 1
  rw [List.map_map]
  exact List.map_congr_left (fun a ha => by simp [Function.comp, ha])

theorem sample_interval_uniformly_mem (i : CostInterval) (r : ℕ)
    (hle : i.left ≤ i.right) :
    i.left ≤ sample_interval_uniformly i r ∧ sample_interval_uniformly i r ≤ i.right := by
  unfold sample_interval_uniformly
  have h1 : 0 ≤ (r : Int) % (i.right - i.left + 1) := Int.emod_nonneg _ (by omega)
  have h2 : (r : Int) % (i.right - i.left + 1) < i.right - i.left + 1 :=
    Int.emod_lt_of_pos _ (by omega)
  omega

/-- Claim C7: for a household whose insulation segment is defined and whose
applicable cost tables (internal wall for solid walls, cavity wall
otherwise, double glazing, loft) carry a well-formed [low, high] entry for
each requested element, get_quote_insulation_elements succeeds and returns
one entry per requested element whose sampled cost lies within that
element's configured interval, both endpoints included. -/
theorem get_quote_in_range (t : CostTables) (h : Household) (rs : Element → ℕ)
    (elements : List Element)
    (hseg : (insulation_segment h).isSome)
    (hdef : ∀ e ∈ elements, ∃ i : CostInterval,
      cost_entry t h e = some i ∧ i.left ≤ i.right) :
    ∃ qs, get_quote_insulation_elements t h rs elements = Except.ok qs ∧
      qs.map Prod.fst = elements ∧
      ∀ e ∈ elements, ∃ c i, (e, c) ∈ qs ∧ cost_entry t h e = some i ∧
        i.left ≤ c ∧ c ≤ i.right := by
  refine ⟨elements.map (fun e => (e, sampled_quote t h rs e)),
    get_quote_all_entries t h rs elements (fun e he => by
      obtain ⟨i, hi, -⟩ := hdef e he; simp [hi]), ?_, ?_⟩
  · have hfst : (Prod.fst ∘ fun e : Element => (e, sampled_quote t h rs e)) = id := by
      funext e; rfl
    rw [List.map_map, hfst, List.map_id]
  intro e he
  obtain ⟨i, hi, hle⟩ := hdef e he
  refine ⟨sampled_quote t h rs e, i, List.mem_map_of_mem _ he, hi, ?_⟩
  have hb := sample_interval_uniformly_mem i (rs e) hle
  simpa [sampled_quote, hi] using hb

theorem get_quote_in_range_witness :
    except_ok (get_quote_insulation_elements unitTables baseHousehold (fun _ => 7)
      [Element.WALLS, Element.ROOF, Element.GLAZING]) = true := by
  obtain ⟨qs, hok, -, -⟩ := get_quote_in_range unitTables baseHousehold (fun _ => 7)
    [Element.WALLS, Element.ROOF, Element.GLAZING] (by decide)
    (fun e he => by
      cases e
      · exact ⟨⟨800, 1600⟩, by decide, by decide⟩
      · exact ⟨⟨300, 700⟩, by decide, by decide⟩
      · exact ⟨⟨3000, 5000⟩, by decide, by decide⟩)
  rw [hok]
  rfl

theorem exp_neg_one_lt_half : Real.exp (-1) < 1 / 2 := by
  rw [Real.exp_neg]
  have h2 : (2:ℝ) < Real.exp 1 := lt_trans (by norm_num) Real.exp_one_gt_d9
  have := inv_strictAnti₀ (by norm_num : (0:ℝ) < 2) h2
  simpa [one_div] using this

theorem third_lt_exp_neg_one : (1:ℝ) / 3 < Real.exp (-1) := by
  rw [Real.exp_neg]
  have h3 : Real.exp 1 < 3 := lt_trans Real.exp_one_lt_d9 (by norm_num)
  have := inv_strictAnti₀ (Real.exp_pos 1) h3
  simpa [one_div] using this

/-- Claim C1 amended: for alpha, beta > 0 and x > 0 whose percentile lies
between epsilon and 1 - epsilon (so x is neither so small that the epsilon
term dominates the logarithm nor at the saturation end), the roundtrip
get_weibull_value_from_percentile after get_weibull_percentile_from_value
recovers x up to exactly the epsilon-induced tolerance: it never exceeds
x, the percentile it corresponds to is the original one shifted down by
exactly epsilon, and with the epsilon term removed the inverse recovers x
exactly. -/
theorem weibull_roundtrip_epsilon_shift (alpha beta x : ℝ)
    (ha : 0 < alpha) (hb : 0 < beta) (hx : 0 < x)
    (hlo : epsilon ≤ get_weibull_percentile_from_value alpha beta x)
    (hhi : get_weibull_percentile_from_value alpha beta x ≤ 1 - epsilon) :
    get_weibull_value_from_percentile alpha beta
        (get_weibull_percentile_from_value alpha beta x) ≤ x ∧
    get_weibull_percentile_from_value alpha beta
        (get_weibull_value_from_percentile alpha beta
          (get_weibull_percentile_from_value alpha beta x)) =
      get_weibull_percentile_from_value alpha beta x - epsilon ∧
    weibull_value_from_percentile_exact alpha beta
        (get_weibull_percentile_from_value alpha beta x) = x := by
  have hxb : 0 < x / beta := div_pos hx hb
  have htpos : 0 < (x / beta) ^ alpha := Real.rpow_pos_of_pos hxb alpha
  have heps : (0:ℝ) < epsilon := by norm_num [epsilon]
  have hperc : get_weibull_percentile_from_value alpha beta x =
      1 - Real.exp (-((x / beta) ^ alpha)) := rfl
  have harg : 1 + epsilon - (1 - Real.exp (-((x / beta) ^ alpha))) =
      epsilon + Real.exp (-((x / beta) ^ alpha)) := by ring
  have hargpos : 0 < epsilon + Real.exp (-((x / beta) ^ alpha)) := by positivity
  have hle1 : epsilon + Real.exp (-((x / beta) ^ alpha)) ≤ 1 := by
    rw [hperc] at hlo; linarith
  have hs0 : 0 ≤ -Real.log (epsilon + Real.exp (-((x / beta) ^ alpha))) := by
    have := Real.log_nonpos (le_of_lt hargpos) hle1
    linarith
  have hst : -Real.log (epsilon + Real.exp (-((x / beta) ^ alpha))) ≤ (x / beta) ^ alpha := by
    have hmono : Real.log (Real.exp (-((x / beta) ^ alpha))) ≤
        Real.log (epsilon + Real.exp (-((x / beta) ^ alpha))) :=
      Real.log_le_log (Real.exp_pos _) (by linarith)
    rw [Real.log_exp] at hmono
    linarith
  have hroundtrip : get_weibull_value_from_percentile alpha beta
      (get_weibull_percentile_from_value alpha beta x) =
      beta * (-Real.log (epsilon + Real.exp (-((x / beta) ^ alpha)))) ^ (1 / alpha) := by
    rw [get_weibull_value_from_percentile, hperc, harg]
  have htpow : ((x / beta) ^ alpha) ^ (1 / alpha) = x / beta := by
    rw [← Real.rpow_mul (le_of_lt hxb), mul_one_div_cancel (ne_of_gt ha), Real.rpow_one]
  refine ⟨?_, ?_, ?_⟩
  · rw [hroundtrip]
    have hle := Real.rpow_le_rpow hs0 hst (le_of_lt (one_div_pos.mpr ha))
    calc beta * (-Real.log (epsilon + Real.exp (-((x / beta) ^ alpha)))) ^ (1 / alpha)
        ≤ beta * ((x / beta) ^ alpha) ^ (1 / alpha) :=
          mul_le_mul_of_nonneg_left hle (le_of_lt hb)
      _ = x := by rw [htpow, mul_div_cancel₀ _ (ne_of_gt hb)]
  · rw [hroundtrip, get_weibull_percentile_from_value]
    have hdivb : beta * (-Real.log (epsilon + Real.exp (-((x / beta) ^ alpha)))) ^
        (1 / alpha) / beta =
        (-Real.log (epsilon + Real.exp (-((x / beta) ^ alpha)))) ^ (1 / alpha) := by
      exact mul_div_cancel_left₀ _ (ne_of_gt hb)
    rw [hdivb, ← Real.rpow_mul hs0, one_div_mul_cancel (ne_of_gt ha), Real.rpow_one,
      neg_neg, Real.exp_log hargpos, hperc]
    ring
  · rw [weibull_value_from_percentile_exact, hperc]
    have h1 : (1 : ℝ) - (1 - Real.exp (-((x / beta) ^ alpha))) =
        Real.exp (-((x / beta) ^ alpha)) := by ring
    rw [h1, Real.log_exp, neg_neg, htpow, mul_div_cancel₀ _ (ne_of_gt hb)]

theorem weibull_roundtrip_epsilon_shift_witness :
    get_weibull_value_from_percentile 1 1 (get_weibull_percentile_from_value 1 1 1) ≤ 1 ∧
    get_weibull_percentile_from_value 1 1
        (get_weibull_value_from_percentile 1 1
          (get_weibull_percentile_from_value 1 1 1)) =
      get_weibull_percentile_from_value 1 1 1 - epsilon ∧
    weibull_value_from_percentile_exact 1 1 (get_weibull_percentile_from_value 1 1 1) = 1 := by
  have hp : get_weibull_percentile_from_value 1 1 1 = 1 - Real.exp (-1) := by
    rw [get_weibull_percentile_from_value, div_one, Real.rpow_one]
  have hepshalf : epsilon ≤ 1 / 2 := by norm_num [epsilon]
  have hepsthird : epsilon ≤ 1 / 3 := by norm_num [epsilon]
  exact weibull_roundtrip_epsilon_shift 1 1 1 one_pos one_pos one_pos
    (by rw [hp]; linarith [exp_neg_one_lt_half])
    (by rw [hp]; linarith [third_lt_exp_neg_one])

/-- Claim C1 counterexample: at alpha = 2, beta = 1 and x = 1/100000 the
claim's hypotheses hold (x is strictly positive and its percentile is far
from saturating at 1), yet the roundtrip returns 0 rather than x up to an
epsilon-induced tolerance: the epsilon term exceeds the tiny percentile,
the logarithm's argument exceeds 1, and the negative quantity is raised to
the fractional power 1/2 (in Python a complex number poisoning the
result), so the recovered value misses x by more than fifty times
epsilon. -/
theorem weibull_roundtrip_small_x_counterexample :
    get_weibull_value_from_percentile 2 1
        (get_weibull_percentile_from_value 2 1 (1 / 100000)) = 0 ∧
    (0:ℝ) < 1 / 100000 ∧
    get_weibull_percentile_from_value 2 1 (1 / 100000) ≤ 1 - epsilon ∧
    50 * epsilon < 1 / 100000 - get_weibull_value_from_percentile 2 1
        (get_weibull_percentile_from_value 2 1 (1 / 100000)) := by
  have heps : epsilon = 1 / 10000000 := by norm_num [epsilon]
  have ht : ((1 / 100000 : ℝ) / 1) ^ (2:ℝ) = 1 / 10000000000 := by
    rw [div_one, Real.rpow_two]; norm_num
  have hp : get_weibull_percentile_from_value 2 1 (1 / 100000) =
      1 - Real.exp (-(1 / 10000000000)) := by
    rw [get_weibull_percentile_from_value, ht]
  have hexp_lb : 1 - (1:ℝ) / 10000000000 ≤ Real.exp (-(1 / 10000000000)) := by
    have h := Real.add_one_le_exp (-(1 / 10000000000 : ℝ))
    linarith
  have harg1 : 1 < 1 + epsilon - get_weibull_percentile_from_value 2 1 (1 / 100000) := by
    rw [hp, heps]; linarith
  have hbase : -Real.log (1 + epsilon -
      get_weibull_percentile_from_value 2 1 (1 / 100000)) < 0 := by
    have := Real.log_pos harg1
    linarith
  have hval : get_weibull_value_from_percentile 2 1
      (get_weibull_percentile_from_value 2 1 (1 / 100000)) = 0 := by
    rw [get_weibull_value_from_percentile, Real.rpow_def_of_neg hbase]
    have hc : (1 / (2:ℝ)) * Real.pi = Real.pi / 2 := by ring
    rw [hc, Real.cos_pi_div_two, mul_zero, mul_zero]
  refine ⟨hval, by norm_num, ?_, ?_⟩
  · rw [hp, heps]
    have hexp_ub : Real.exp (-(1 / 10000000000 : ℝ)) ≤ 1 := by
      rw [Real.exp_le_one_iff]
      norm_num
    linarith
  · rw [hval, heps]
    norm_num

/-- Claim C2: for two households identical except in property_value, with
the Weibull calibration parameters positive as the spec requires, the
household with the higher (nonnegative) property value has a strictly
higher wealth_percentile and, away from the epsilon precision boundary
(the lower percentile at least epsilon), a strictly higher
renovation_budget; both derived properties are monotone increasing in
property_value. -/
theorem wealth_and_budget_monotone (c : GBWeibullConstants)
    (ha1 : 0 < c.property_value_alpha) (hb1 : 0 < c.property_value_beta)
    (ha2 : 0 < c.renovation_budget_alpha) (hb2 : 0 < c.renovation_budget_beta)
    (h : Household) (v1 v2 : ℤ) (hv0 : 0 ≤ v1) (hv : v1 < v2)
    (hfloor : epsilon ≤ wealth_percentile c { h with property_value := v1 }) :
    wealth_percentile c { h with property_value := v1 } <
      wealth_percentile c { h with property_value := v2 } ∧
    renovation_budget c { h with property_value := v1 } <
      renovation_budget c { h with property_value := v2 } := by
  have heps : (0:ℝ) < epsilon := by norm_num [epsilon]
  have hw1 : wealth_percentile c { h with property_value := v1 } =
      1 - Real.exp (-(((v1:ℝ) / c.property_value_beta) ^ c.property_value_alpha)) := rfl
  have hw2 : wealth_percentile c { h with property_value := v2 } =
      1 - Real.exp (-(((v2:ℝ) / c.property_value_beta) ^ c.property_value_alpha)) := rfl
  have hcast : (v1:ℝ) < (v2:ℝ) := by exact_mod_cast hv
  have hcast0 : (0:ℝ) ≤ (v1:ℝ) := by exact_mod_cast hv0
  have hdiv : (v1:ℝ) / c.property_value_beta < (v2:ℝ) / c.property_value_beta := by
    gcongr
  have hdiv0 : 0 ≤ (v1:ℝ) / c.property_value_beta := div_nonneg hcast0 (le_of_lt hb1)
  have hrpow : ((v1:ℝ) / c.property_value_beta) ^ c.property_value_alpha <
      ((v2:ℝ) / c.property_value_beta) ^ c.property_value_alpha :=
    Real.rpow_lt_rpow hdiv0 hdiv ha1
  have hplt : wealth_percentile c { h with property_value := v1 } <
      wealth_percentile c { h with property_value := v2 } := by
    rw [hw1, hw2]
    have := Real.exp_lt_exp.mpr (neg_lt_neg hrpow)
    linarith
  refine ⟨hplt, ?_⟩
  have hp2lt1 : wealth_percentile c { h with property_value := v2 } < 1 := by
    rw [hw2]
    have := Real.exp_pos (-(((v2:ℝ) / c.property_value_beta) ^ c.property_value_alpha))
    linarith
  have hq2pos : 0 < 1 + epsilon - wealth_percentile c { h with property_value := v2 } := by
    linarith
  have hqlt : 1 + epsilon - wealth_percentile c { h with property_value := v2 } <
      1 + epsilon - wealth_percentile c { h with property_value := v1 } := by
    linarith
  have hlog : Real.log (1 + epsilon - wealth_percentile c { h with property_value := v2 }) <
      Real.log (1 + epsilon - wealth_percentile c { h with property_value := v1 }) :=
    Real.log_lt_log hq2pos hqlt
  have hq1le1 : 1 + epsilon - wealth_percentile c { h with property_value := v1 } ≤ 1 := by
    linarith
  have hbase1 : 0 ≤ -Real.log (1 + epsilon -
      wealth_percentile c { h with property_value := v1 }) := by
    have := Real.log_nonpos (by linarith) hq1le1
    linarith
  have hrpow2 : (-Real.log (1 + epsilon -
        wealth_percentile c { h with property_value := v1 })) ^
        (1 / c.renovation_budget_alpha) <
      (-Real.log (1 + epsilon -
        wealth_percentile c { h with property_value := v2 })) ^
        (1 / c.renovation_budget_alpha) :=
    Real.rpow_lt_rpow hbase1 (by linarith) (one_div_pos.mpr ha2)
  have hb1def : renovation_budget c { h with property_value := v1 } =
      0.1 * (c.renovation_budget_beta * (-Real.log (1 + epsilon -
        wealth_percentile c { h with property_value := v1 })) ^
        (1 / c.renovation_budget_alpha)) := rfl
  have hb2def : renovation_budget c { h with property_value := v2 } =
      0.1 * (c.renovation_budget_beta * (-Real.log (1 + epsilon -
        wealth_percentile c { h with property_value := v2 })) ^
        (1 / c.renovation_budget_alpha)) := rfl
  rw [hb1def, hb2def]
  have hmul := mul_lt_mul_of_pos_left hrpow2 hb2
  have h01 : (0:ℝ) < 0.1 := by norm_num
  exact mul_lt_mul_of_pos_left hmul h01

theorem wealth_and_budget_monotone_witness :
    wealth_percentile ⟨1, 1, 1, 1⟩ { baseHousehold with property_value := 1 } <
      wealth_percentile ⟨1, 1, 1, 1⟩ { baseHousehold with property_value := 2 } ∧
    renovation_budget ⟨1, 1, 1, 1⟩ { baseHousehold with property_value := 1 } <
      renovation_budget ⟨1, 1, 1, 1⟩ { baseHousehold with property_value := 2 } := by
  have hw : wealth_percentile ⟨1, 1, 1, 1⟩ { baseHousehold with property_value := 1 } =
      1 - Real.exp (-1) := by
    show 1 - Real.exp (-((((1:ℤ):ℝ) / 1) ^ (1:ℝ))) = 1 - Real.exp (-1)
    norm_num
  have hepshalf : epsilon ≤ 1 / 2 := by norm_num [epsilon]
  exact wealth_and_budget_monotone ⟨1, 1, 1, 1⟩ one_pos one_pos one_pos one_pos
    baseHousehold 1 2 (by norm_num) (by norm_num)
    (by rw [hw]; linarith [exp_neg_one_lt_half])

/-- Claim C9 amended: the Weibull forward transform fails explicitly when
beta is zero (a ZeroDivisionError) and when the ratio input_value / beta
is strictly negative with a non-integral shape alpha (a complex power that
math.exp rejects), covering a strictly negative property value with
positive beta; a property value of exactly 0, however, is accepted
silently (see the counterexample). -/
theorem weibull_percentile_domain_error (alpha beta x : ℝ)
    (hdom : beta = 0 ∨ (beta ≠ 0 ∧ x / beta < 0 ∧ ∀ n : ℤ, alpha ≠ (n : ℝ))) :
    except_ok (get_weibull_percentile_from_value_checked alpha beta x) = false := by
  rcases hdom with hb0 | ⟨hbne, hneg, hint⟩
  · unfold get_weibull_percentile_from_value_checked
    rw [if_pos hb0]
    rfl
  · unfold get_weibull_percentile_from_value_checked pyFloatPow
    rw [if_neg hbne, if_neg (fun hc => absurd hneg (by rw [hc.1]; exact lt_irrefl 0)),
      if_pos ⟨hneg, hint⟩]
    rfl

theorem weibull_percentile_domain_error_witness :
    except_ok (get_weibull_percentile_from_value_checked (1/2) 1 (-1)) = false :=
  weibull_percentile_domain_error (1/2) 1 (-1)
    (Or.inr ⟨one_ne_zero, by norm_num, by
      intro n hn
      have h2 : (1:ℝ) = 2 * (n:ℝ) := by linarith [hn]
      have h3 : (1:ℤ) = 2 * n := by exact_mod_cast h2
      omega⟩)

/-- Claim C9 counterexample: wealth_percentile evaluated on a household
with property_value = 0 (a non-positive property value, with positive
calibration parameters) does not surface an error: the checked transform
returns percentile 0 silently. -/
theorem weibull_percentile_zero_value_counterexample :
    wealth_percentile_checked ⟨2, 1, 1, 1⟩ { baseHousehold with property_value := 0 } =
      Except.ok 0 ∧
    ({ baseHousehold with property_value := 0 } : Household).property_value ≤ 0 := by
  refine ⟨?_, le_refl 0⟩
  unfold wealth_percentile_checked get_weibull_percentile_from_value_checked pyFloatPow
  rw [if_neg (one_ne_zero : (1:ℝ) ≠ 0)]
  have hb : (((0:ℤ):ℝ) / 1) = 0 := by norm_num
  rw [hb, if_neg (fun hc => absurd hc.2 (by norm_num)),
    if_neg (fun hc => absurd hc.1 (lt_irrefl 0)),
    Real.zero_rpow (by norm_num : (2:ℝ) ≠ 0)]
  simp [Except.map]
